import Mathlib

/-!
Shallow embedding of `acestep/core/generation/handler/init_service.py`
(`InitServiceMixin`): device-identity normalization, flash-attention and
turbo-model capability probes, the memory/sync dispatcher, and the
checkpoint locator. External state (the torch driver, the filesystem,
the handler's `device`/`config` attributes) is passed explicitly.
-/

namespace AceStep

/-- A Python value that may be stored in a configuration attribute.
Only the shapes relevant to the claims are represented. -/
inductive PyValue where
  | bool (b : Bool)
  | int (n : Int)
  | str (s : String)
  | pynone
deriving DecidableEq, Repr

/-- The model configuration object: an opaque object that may or may not
carry an `is_turbo` attribute (`none` = attribute absent). -/
structure ModelConfig where
  is_turbo : Option PyValue
deriving DecidableEq, Repr

/-- `is_turbo_model`: `if self.config is None: return False;
return getattr(self.config, "is_turbo", False)`.  The handler's `config`
attribute is the argument (`none` = Python `None`). -/
def is_turbo_model (config : Option ModelConfig) : PyValue :=
  match config with
  | none => PyValue.bool false
  | some c => c.is_turbo.getD (PyValue.bool false)

/-- The handler's `device` attribute: either a plain string or a
`torch.device` handle with a type field and an optional index. -/
inductive Device where
  | str (s : String)
  | handle (ty : String) (idx : Option Nat)
deriving DecidableEq, Repr

/-- `_device_type`: `self.device if isinstance(self.device, str) else
self.device.type`. -/
def _device_type (device : Device) : String :=
  match device with
  | Device.str s => s
  | Device.handle ty _ => ty

/-- The live state of the torch driver, as observed through the
attribute/availability probes the source performs. -/
structure TorchState where
  cudaAvailable : Bool
  hasXpu : Bool
  xpuAvailable : Bool
  hasMpsBackend : Bool
  mpsAvailable : Bool
  cudaMemoryAllocated : Nat
  cudaMaxMemoryAllocated : Nat
deriving DecidableEq, Repr

/-- Which backend API call a dispatcher operation issued. -/
inductive BackendCall where
  | cuda
  | xpu
  | mps
deriving DecidableEq, Repr

/-- `_empty_cache`: branch on `_device_type()`; issue the matching
backend's `empty_cache` only when that backend is present and reports
available; otherwise fall through and do nothing.  The return value
records which backend call (if any) was issued. -/
def _empty_cache (ts : TorchState) (device : Device) : Option BackendCall :=
  let device_type := _device_type device
  if device_type = "cuda" ∧ ts.cudaAvailable = true then
    some BackendCall.cuda
  else if device_type = "xpu" ∧ ts.hasXpu = true ∧ ts.xpuAvailable = true then
    some BackendCall.xpu
  else if device_type = "mps" ∧ ts.hasMpsBackend = true ∧ ts.mpsAvailable = true then
    some BackendCall.mps
  else
    none

/-- `_synchronize`: same dispatch pattern as `_empty_cache`, issuing the
matching backend's `synchronize`. -/
def _synchronize (ts : TorchState) (device : Device) : Option BackendCall :=
  let device_type := _device_type device
  if device_type = "cuda" ∧ ts.cudaAvailable = true then
    some BackendCall.cuda
  else if device_type = "xpu" ∧ ts.hasXpu = true ∧ ts.xpuAvailable = true then
    some BackendCall.xpu
  else if device_type = "mps" ∧ ts.hasMpsBackend = true ∧ ts.mpsAvailable = true then
    some BackendCall.mps
  else
    none

/-- `_memory_allocated`: `torch.cuda.memory_allocated()` when the device
type is `"cuda"` and CUDA is available, else `0`. -/
def _memory_allocated (ts : TorchState) (device : Device) : Nat :=
  let device_type := _device_type device
  if device_type = "cuda" ∧ ts.cudaAvailable = true then
    ts.cudaMemoryAllocated
  else
    0

/-- `_max_memory_allocated`: `torch.cuda.max_memory_allocated()` when the
device type is `"cuda"` and CUDA is available, else `0`. -/
def _max_memory_allocated (ts : TorchState) (device : Device) : Nat :=
  let device_type := _device_type device
  if device_type = "cuda" ∧ ts.cudaAvailable = true then
    ts.cudaMaxMemoryAllocated
  else
    0

/-- `_device_type` on the raw handler attribute, which may be absent
(`self.device = None`): `isinstance(None, str)` is false, so the source
evaluates `None.type`, and that attribute access raises `AttributeError`
(`Except.error`); a present string or handle resolves as
`_device_type`. -/
def _device_type_raw : Option Device → Except Unit String
  | some d => Except.ok (_device_type d)
  | none => Except.error ()

/-- `_empty_cache` on the raw handler attribute: the operation evaluates
`self._device_type()` first, so with an absent device the
`AttributeError` escapes; with a present device it dispatches as
`_empty_cache`. -/
def _empty_cache_raw (ts : TorchState) (device : Option Device) :
    Except Unit (Option BackendCall) :=
  match device with
  | none => Except.error ()
  | some d => Except.ok (_empty_cache ts d)

/-- `_synchronize` on the raw handler attribute: `AttributeError` escapes
for an absent device, otherwise dispatches as `_synchronize`. -/
def _synchronize_raw (ts : TorchState) (device : Option Device) :
    Except Unit (Option BackendCall) :=
  match device with
  | none => Except.error ()
  | some d => Except.ok (_synchronize ts d)

/-- `_memory_allocated` on the raw handler attribute: `AttributeError`
escapes for an absent device, otherwise dispatches as
`_memory_allocated`. -/
def _memory_allocated_raw (ts : TorchState) (device : Option Device) :
    Except Unit Nat :=
  match device with
  | none => Except.error ()
  | some d => Except.ok (_memory_allocated ts d)

/-- `_max_memory_allocated` on the raw handler attribute: `AttributeError`
escapes for an absent device, otherwise dispatches as
`_max_memory_allocated`. -/
def _max_memory_allocated_raw (ts : TorchState) (device : Option Device) :
    Except Unit Nat :=
  match device with
  | none => Except.error ()
  | some d => Except.ok (_max_memory_allocated ts d)

/-- Characters of a string up to (excluding) the first `:`. -/
def takeBeforeColon : List Char → List Char
  | [] => []
  | c :: cs => if c = ':' then [] else c :: takeBeforeColon cs

/-- Python `s.split(":", 1)[0]`: the substring before the first `:`
separator (the whole string when there is no `:`). -/
def splitFirstColon (s : String) : String :=
  String.mk (takeBeforeColon s.data)

/-- Python `str(...)` applied to a device value: a string renders as
itself, `torch.device` renders as `type` or `type:index`. -/
def pyStrDevice : Device → String
  | Device.str s => s
  | Device.handle ty none => ty
  | Device.handle ty (some i) => ty ++ ":" ++ toString i

/-- Python truthiness of a device value: the empty string is falsy, any
other string and every `torch.device` handle is truthy. -/
def deviceTruthy : Device → Bool
  | Device.str s => s ≠ ""
  | Device.handle _ _ => true

/-- Python `self.device or "auto"` rendered through `str(...)`:
the handler device when present and truthy, else `"auto"`. -/
def selfDeviceOrAuto (selfDevice : Option Device) : String :=
  match selfDevice with
  | some d => if deviceTruthy d then pyStrDevice d else "auto"
  | none => "auto"

/-- `str(device or self.device or "auto").split(":", 1)[0]`: the target
device tag resolved by `is_flash_attention_available`.  An empty-string
override is falsy in Python and falls through to the handler device. -/
def flashTargetDevice (device : Option String) (selfDevice : Option Device) : String :=
  splitFirstColon
    (match device with
     | some s => if s = "" then selfDeviceOrAuto selfDevice else s
     | none => selfDeviceOrAuto selfDevice)

/-- Outcome of the speculative `import flash_attn` probe. -/
inductive ProbeResult where
  | ok
  | importError
  | otherError
deriving DecidableEq, Repr

/-- The `try: import flash_attn; return True; except ImportError: return
False` tail of `is_flash_attention_available`: a successful import yields
`True`, an `ImportError` is caught and yields `False`, and any other
exception class propagates (modelled as `Except.error`). -/
def probeFlashAttn : ProbeResult → Except Unit Bool
  | ProbeResult.ok => Except.ok true
  | ProbeResult.importError => Except.ok false
  | ProbeResult.otherError => Except.error ()

/-- `is_flash_attention_available(device=None)`: resolve the target tag,
gate on CUDA, then run the import probe.  `Except.error` marks an
exception escaping to the caller. -/
def is_flash_attention_available (ts : TorchState) (device : Option String)
    (selfDevice : Option Device) (probe : ProbeResult) : Except Unit Bool :=
  let target_device := flashTargetDevice device selfDevice
  if target_device = "auto" then
    if ts.cudaAvailable = false then Except.ok false
    else probeFlashAttn probe
  else
    if target_device ≠ "cuda" ∨ ts.cudaAvailable = false then Except.ok false
    else probeFlashAttn probe

/-- One entry of the checkpoint directory listing: its name and whether
`os.path.isdir` holds for it. -/
structure DirEntry where
  name : String
  isDir : Bool
deriving DecidableEq, Repr

/-- The filesystem state the checkpoint locator observes: the resolved
project root, whether `<root>/checkpoints` exists, and its listing. -/
structure FS where
  projectRoot : String
  checkpointExists : Bool
  entries : List DirEntry
deriving DecidableEq, Repr

/-- `os.path.join` for a relative second component. -/
def osPathJoin (a b : String) : String :=
  if a = "" then b
  else if a.data.getLast? = some '/' then a ++ b
  else a ++ "/" ++ b

/-- `get_available_checkpoints`: `[<root>/checkpoints]` when that
directory exists, else `[]`. -/
def get_available_checkpoints (fs : FS) : List String :=
  let checkpoint_dir := osPathJoin fs.projectRoot "checkpoints"
  if fs.checkpointExists = true then [checkpoint_dir] else []

/-- Python `s.startswith(p)`: `p` is a prefix of `s`. -/
def pyStartsWith (s p : String) : Bool :=
  p.data.isPrefixOf s.data

/-- Lexicographic code-point comparison of character lists: the order
Python uses to compare strings. -/
def lexLe : List Char → List Char → Bool
  | [], _ => true
  | _ :: _, [] => false
  | a :: as, b :: bs =>
    if a < b then true
    else if b < a then false
    else lexLe as bs

/-- Python string comparison `a <= b`: lexicographic on code points. -/
def pyStrLe (a b : String) : Bool :=
  lexLe a.data b.data

/-- `get_available_acestep_v15_models`: collect the names of directory
entries starting with `"acestep-v15-"` when the checkpoint directory
exists, then sort ascending (`models.sort()`, Python string order). -/
def get_available_acestep_v15_models (fs : FS) : List String :=
  let models :=
    if fs.checkpointExists = true then
      (fs.entries.filter
        (fun e => e.isDir && pyStartsWith e.name "acestep-v15-")).map DirEntry.name
    else []
  List.insertionSort (fun a b => pyStrLe a b = true) models

/-! ### Concrete fixtures used by witnesses and counterexamples -/

/-- A driver state where only CUDA is available. -/
def tsCudaOnly : TorchState :=
  ⟨true, false, false, false, false, 7, 9⟩

/-- A driver state where every accelerator reports available. -/
def tsAllOn : TorchState :=
  ⟨true, true, true, true, true, 7, 9⟩

/-- A driver state with no accelerator available. -/
def tsAllOff : TorchState :=
  ⟨false, true, false, true, false, 7, 9⟩

/-- A checkpoint directory listing with a mix of matching directories,
a non-matching directory and a matching plain file, out of order. -/
def fsDemo : FS :=
  ⟨"/proj", true,
   [⟨"zeta", true⟩, ⟨"acestep-v15-b", true⟩, ⟨"acestep-v15-a", true⟩,
    ⟨"acestep-v15-c", false⟩]⟩

/-- A filesystem state whose checkpoint directory does not exist. -/
def fsAbsent : FS :=
  ⟨"/proj", false, []⟩

/-! ### Supporting lemmas -/

/-- `lexLe` is the complement-converse of the core lexicographic strict
order on character lists. -/
theorem lexLe_iff : ∀ as bs : List Char, lexLe as bs = true ↔ ¬ List.lt bs as
  | [], [] => by
    simp [lexLe]
    intro h; cases h
  | [], b :: bs => by
    simp [lexLe]
    intro h; cases h
  | a :: as, [] => by
    simp [lexLe]
    exact List.lt.nil a as
  | a :: as, b :: bs => by
    simp only [lexLe]
    by_cases hab : a < b
    · simp only [if_pos hab, true_iff]
      intro h
      cases h with
      | head _ _ hba => exact absurd hab (lt_asymm hba)
      | tail h1 h2 _ => exact h2 hab
    · by_cases hba : b < a
      · simp only [if_neg hab, if_pos hba]
        constructor
        · intro h; cases h
        · intro h; exact absurd (List.lt.head bs as hba) h
      · simp only [if_neg hab, if_neg hba]
        rw [lexLe_iff as bs]
        constructor
        · intro h hlt
          cases hlt with
          | head _ _ h' => exact hba h'
          | tail _ _ h' => exact h h'
        · intro h h'
          exact h (List.lt.tail hba hab h')

/-- Python string comparison agrees with the order on `String`. -/
theorem pyStrLe_iff_le (a b : String) : pyStrLe a b = true ↔ a ≤ b := by
  rw [pyStrLe, lexLe_iff, ← not_lt, String.lt_iff_toList_lt]
  exact not_congr (List.lt_iff_lex_lt b.data a.data)

instance : IsTotal String (fun a b => pyStrLe a b = true) :=
  ⟨fun a b => by
    rw [pyStrLe_iff_le, pyStrLe_iff_le]
    exact le_total a b⟩

instance : IsTrans String (fun a b => pyStrLe a b = true) :=
  ⟨fun a b c hab hbc => by
    rw [pyStrLe_iff_le] at *
    exact le_trans hab hbc⟩

/-! ### Claim theorems -/

/-- C1 counterexample: with the handler device absent (`self.device =
None`), the attribute access `None.type` inside `_device_type` raises
`AttributeError`, and that exception escapes every one of the four
memory/sync operations — refuting "no exception escapes any of the four
operations under any input". -/
theorem memory_sync_raises_on_absent_cex :
    _empty_cache_raw tsAllOn none = Except.error ()
    ∧ _synchronize_raw tsAllOn none = Except.error ()
    ∧ _memory_allocated_raw tsAllOn none = Except.error ()
    ∧ _max_memory_allocated_raw tsAllOn none = Except.error () :=
  ⟨rfl, rfl, rfl, rfl⟩

/-- C1 amended: for every present device specification (string or
handle) and every driver state, each operation issues a backend call
exactly when the resolved device type names that accelerator AND the
accelerator reports itself available, otherwise it silently no-ops or
returns zero, and no exception escapes; the four operations raise
exactly when the handler device is absent, where `_device_type` raises
`AttributeError`. -/
theorem memory_sync_dispatch_gated (ts : TorchState) (d : Option Device) :
    ((_empty_cache_raw ts d = Except.error ()
        ∧ _synchronize_raw ts d = Except.error ()
        ∧ _memory_allocated_raw ts d = Except.error ()
        ∧ _max_memory_allocated_raw ts d = Except.error ()) ↔ d = none)
    ∧ (∀ dev : Device, d = some dev →
        (_empty_cache_raw ts d = Except.ok (some BackendCall.cuda) ↔
          _device_type dev = "cuda" ∧ ts.cudaAvailable = true)
        ∧ (_empty_cache_raw ts d = Except.ok (some BackendCall.xpu) ↔
          _device_type dev = "xpu" ∧ ts.hasXpu = true ∧ ts.xpuAvailable = true)
        ∧ (_empty_cache_raw ts d = Except.ok (some BackendCall.mps) ↔
          _device_type dev = "mps" ∧ ts.hasMpsBackend = true
            ∧ ts.mpsAvailable = true)
        ∧ (_synchronize_raw ts d = Except.ok (some BackendCall.cuda) ↔
          _device_type dev = "cuda" ∧ ts.cudaAvailable = true)
        ∧ (_synchronize_raw ts d = Except.ok (some BackendCall.xpu) ↔
          _device_type dev = "xpu" ∧ ts.hasXpu = true ∧ ts.xpuAvailable = true)
        ∧ (_synchronize_raw ts d = Except.ok (some BackendCall.mps) ↔
          _device_type dev = "mps" ∧ ts.hasMpsBackend = true
            ∧ ts.mpsAvailable = true)
        ∧ (¬(_device_type dev = "cuda" ∧ ts.cudaAvailable = true) →
          _memory_allocated_raw ts d = Except.ok 0
            ∧ _max_memory_allocated_raw ts d = Except.ok 0)
        ∧ (_device_type dev = "cuda" ∧ ts.cudaAvailable = true →
          _memory_allocated_raw ts d = Except.ok ts.cudaMemoryAllocated
            ∧ _max_memory_allocated_raw ts d
                = Except.ok ts.cudaMaxMemoryAllocated)) := by
  cases d with
  | none =>
    constructor
    · simp [_empty_cache_raw, _synchronize_raw, _memory_allocated_raw,
        _max_memory_allocated_raw]
    · intro dev h
      cases h
  | some dev =>
    constructor
    · simp [_empty_cache_raw, _synchronize_raw, _memory_allocated_raw,
        _max_memory_allocated_raw]
    · intro dev' h
      injection h with h
      subst h
      simp only [_empty_cache_raw, _synchronize_raw, _memory_allocated_raw,
        _max_memory_allocated_raw, Except.ok.injEq]
      simp only [_empty_cache, _synchronize, _memory_allocated,
        _max_memory_allocated]
      split_ifs <;> simp_all

/-- C1 witness: an absent device makes all four operations raise; with no
accelerator available they return the safe defaults for a CUDA string
device; with CUDA available the allocation query reports the live
value. -/
theorem memory_sync_dispatch_gated_witness :
    _empty_cache_raw tsAllOff none = Except.error ()
    ∧ _memory_allocated_raw tsAllOff (some (Device.str "cuda")) = Except.ok 0
    ∧ _max_memory_allocated_raw tsAllOff (some (Device.str "cuda")) = Except.ok 0
    ∧ _memory_allocated_raw tsCudaOnly (some (Device.str "cuda"))
        = Except.ok tsCudaOnly.cudaMemoryAllocated :=
  ⟨((memory_sync_dispatch_gated tsAllOff none).1.mpr rfl).1,
   (((memory_sync_dispatch_gated tsAllOff (some (Device.str "cuda"))).2
      (Device.str "cuda") rfl).2.2.2.2.2.2.1 (by decide)).1,
   (((memory_sync_dispatch_gated tsAllOff (some (Device.str "cuda"))).2
      (Device.str "cuda") rfl).2.2.2.2.2.2.1 (by decide)).2,
   (((memory_sync_dispatch_gated tsCudaOnly (some (Device.str "cuda"))).2
      (Device.str "cuda") rfl).2.2.2.2.2.2.2 ⟨rfl, rfl⟩).1⟩

/-- C2: `is_flash_attention_available` returns `False` for every resolved
tag other than `"cuda"` and other than `"auto"` with CUDA present,
regardless of the probe outcome and of any accelerator hardware. -/
theorem flash_false_off_cuda (ts : TorchState) (device : Option String)
    (selfDevice : Option Device) (probe : ProbeResult)
    (h1 : flashTargetDevice device selfDevice ≠ "cuda")
    (h2 : ¬(flashTargetDevice device selfDevice = "auto" ∧ ts.cudaAvailable = true)) :
    is_flash_attention_available ts device selfDevice probe = Except.ok false := by
  simp only [is_flash_attention_available]
  by_cases h : flashTargetDevice device selfDevice = "auto"
  · rw [if_pos h]
    have hc : ts.cudaAvailable = false := by
      cases hc : ts.cudaAvailable
      · rfl
      · exact absurd ⟨h, hc⟩ h2
    rw [if_pos hc]
  · rw [if_neg h, if_pos (Or.inl h1)]

/-- C2 witness: tag `"xpu"` with all hardware present and the probe
succeeding still yields `False`. -/
theorem flash_false_off_cuda_witness :
    flashTargetDevice (some "xpu") none ≠ "cuda"
    ∧ is_flash_attention_available tsAllOn (some "xpu") none ProbeResult.ok
        = Except.ok false :=
  ⟨by decide,
   flash_false_off_cuda tsAllOn (some "xpu") none ProbeResult.ok
     (by decide) (by decide)⟩

/-- C3 counterexample: resolution does not return one of the five
canonical identities — a handler device `"foo"` resolves to the raw tag
`"foo"` — and it does not never-raise on the claimed domain — with the
handler device absent, `_device_type` raises `AttributeError`. -/
theorem device_resolution_not_canonical_cex :
    (_device_type (Device.str "foo") ≠ "cuda"
      ∧ _device_type (Device.str "foo") ≠ "xpu"
      ∧ _device_type (Device.str "foo") ≠ "mps"
      ∧ _device_type (Device.str "foo") ≠ "cpu"
      ∧ _device_type (Device.str "foo") ≠ "auto")
    ∧ _device_type_raw none = Except.error () :=
  ⟨by decide, rfl⟩

/-- C3 amended: for string or handle input, resolution never raises and
returns the raw tag (not necessarily canonical), and every memory/sync
operation treats any tag outside the recognized accelerator tags as "no
accelerator", returning the safe default; an absent device specification
resolves to `"auto"` only on the flash-attention path (via its
`or "auto"` default), while `_device_type` on an absent handler device
raises `AttributeError`. -/
theorem device_resolution_total_safe (ts : TorchState) (d : Device)
    (h1 : _device_type d ≠ "cuda") (h2 : _device_type d ≠ "xpu")
    (h3 : _device_type d ≠ "mps") :
    (_empty_cache ts d = none ∧ _synchronize ts d = none
      ∧ _memory_allocated ts d = 0 ∧ _max_memory_allocated ts d = 0)
    ∧ flashTargetDevice none none = "auto"
    ∧ _device_type_raw none = Except.error () := by
  refine ⟨?_, by decide, rfl⟩
  simp [_empty_cache, _synchronize, _memory_allocated, _max_memory_allocated,
    h1, h2, h3]

/-- C3 witness: the unrecognized tag `"foo"` yields the safe defaults
even with every accelerator available, absent input resolves to `"auto"`
on the flash path and raises on the dispatcher path. -/
theorem device_resolution_total_safe_witness :
    _empty_cache tsAllOn (Device.str "foo") = none
    ∧ _synchronize tsAllOn (Device.str "foo") = none
    ∧ _memory_allocated tsAllOn (Device.str "foo") = 0
    ∧ _max_memory_allocated tsAllOn (Device.str "foo") = 0
    ∧ flashTargetDevice none none = "auto"
    ∧ _device_type_raw none = Except.error () :=
  ⟨(device_resolution_total_safe tsAllOn (Device.str "foo")
      (by decide) (by decide) (by decide)).1.1,
   (device_resolution_total_safe tsAllOn (Device.str "foo")
      (by decide) (by decide) (by decide)).1.2.1,
   (device_resolution_total_safe tsAllOn (Device.str "foo")
      (by decide) (by decide) (by decide)).1.2.2.1,
   (device_resolution_total_safe tsAllOn (Device.str "foo")
      (by decide) (by decide) (by decide)).1.2.2.2,
   (device_resolution_total_safe tsAllOn (Device.str "foo")
      (by decide) (by decide) (by decide)).2.1,
   (device_resolution_total_safe tsAllOn (Device.str "foo")
      (by decide) (by decide) (by decide)).2.2⟩

/-- C4 counterexample: with handler device the string `"cuda:0"` and CUDA
available, the dispatcher does not strip the `:0` suffix — it issues no
CUDA call and the allocation query returns the safe default `0` instead
of the live (nonzero) value. -/
theorem dispatcher_no_split_cex :
    tsCudaOnly.cudaAvailable = true
    ∧ _empty_cache tsCudaOnly (Device.str "cuda:0") = none
    ∧ _synchronize tsCudaOnly (Device.str "cuda:0") = none
    ∧ _memory_allocated tsCudaOnly (Device.str "cuda:0") = 0
    ∧ tsCudaOnly.cudaMemoryAllocated ≠ 0 := by
  decide

/-- C4 amended: only `is_flash_attention_available` takes the substring
before `:`; the memory/sync dispatcher compares the handler device
verbatim, so a device string `"cuda:0"` yields the safe defaults, while
a device handle of type `"cuda"` (any index) and the plain string
`"cuda"` dispatch to the CUDA backend. -/
theorem dispatcher_no_split (ts : TorchState) (sd : Option Device)
    (h : ts.cudaAvailable = true) :
    flashTargetDevice (some "cuda:0") sd = "cuda"
    ∧ _empty_cache ts (Device.str "cuda:0") = none
    ∧ _synchronize ts (Device.str "cuda:0") = none
    ∧ _memory_allocated ts (Device.str "cuda:0") = 0
    ∧ _empty_cache ts (Device.handle "cuda" (some 0)) = some BackendCall.cuda
    ∧ _synchronize ts (Device.handle "cuda" (some 0)) = some BackendCall.cuda
    ∧ _memory_allocated ts (Device.handle "cuda" (some 0)) = ts.cudaMemoryAllocated
    ∧ _max_memory_allocated ts (Device.handle "cuda" (some 0))
        = ts.cudaMaxMemoryAllocated
    ∧ _empty_cache ts (Device.str "cuda") = some BackendCall.cuda := by
  refine ⟨?_, ?_, ?_, ?_, ?_, ?_, ?_, ?_, ?_⟩
  · simp [flashTargetDevice]
    decide
  · simp [_empty_cache, _device_type]
  · simp [_synchronize, _device_type]
  · simp [_memory_allocated, _device_type]
  · simp [_empty_cache, _device_type, h]
  · simp [_synchronize, _device_type, h]
  · simp [_memory_allocated, _device_type, h]
  · simp [_max_memory_allocated, _device_type, h]
  · simp [_empty_cache, _device_type, h]

/-- C4 witness: the amended behaviour at a concrete driver state. -/
theorem dispatcher_no_split_witness :
    flashTargetDevice (some "cuda:0") none = "cuda"
    ∧ _empty_cache tsCudaOnly (Device.str "cuda:0") = none
    ∧ _empty_cache tsCudaOnly (Device.handle "cuda" (some 0)) = some BackendCall.cuda
    ∧ _memory_allocated tsCudaOnly (Device.handle "cuda" (some 0))
        = tsCudaOnly.cudaMemoryAllocated :=
  ⟨(dispatcher_no_split tsCudaOnly none rfl).1,
   (dispatcher_no_split tsCudaOnly none rfl).2.1,
   (dispatcher_no_split tsCudaOnly none rfl).2.2.2.2.1,
   (dispatcher_no_split tsCudaOnly none rfl).2.2.2.2.2.2.1⟩

/-- C5 counterexample: with an empty-string override the result does
depend on the handler's current device — handler `"cpu"` yields `False`
while handler `"cuda"` yields `True` under the same driver state and
probe. -/
theorem flash_empty_override_cex :
    is_flash_attention_available tsCudaOnly (some "") (some (Device.str "cpu"))
        ProbeResult.ok = Except.ok false
    ∧ is_flash_attention_available tsCudaOnly (some "") (some (Device.str "cuda"))
        ProbeResult.ok = Except.ok true :=
  ⟨rfl, rfl⟩

/-- C5 amended: an empty-string override is falsy and falls back to the
handler's current device — the call behaves exactly as with no override
— and resolves to `"auto"` only when the handler device is itself
absent. -/
theorem flash_empty_override_falls_back (ts : TorchState) (sd : Option Device)
    (probe : ProbeResult) :
    is_flash_attention_available ts (some "") sd probe
        = is_flash_attention_available ts none sd probe
    ∧ (sd = none → flashTargetDevice (some "") sd = "auto") := by
  constructor
  · simp [is_flash_attention_available, flashTargetDevice]
  · rintro rfl
    decide

/-- C5 witness: the amended behaviour at concrete inputs. -/
theorem flash_empty_override_falls_back_witness :
    is_flash_attention_available tsCudaOnly (some "") (some (Device.str "cpu"))
        ProbeResult.ok
      = is_flash_attention_available tsCudaOnly none (some (Device.str "cpu"))
        ProbeResult.ok
    ∧ flashTargetDevice (some "") none = "auto" :=
  ⟨(flash_empty_override_falls_back tsCudaOnly (some (Device.str "cpu"))
      ProbeResult.ok).1,
   (flash_empty_override_falls_back tsCudaOnly none ProbeResult.ok).2 rfl⟩

/-- C6 counterexample: an exception of a class other than `ImportError`
raised by the probe is not caught — it escapes to the caller. -/
theorem flash_probe_other_error_cex :
    is_flash_attention_available tsCudaOnly (some "cuda") none
        ProbeResult.otherError = Except.error () :=
  rfl

/-- C6 amended: when the resolved tag is `"cuda"` (or `"auto"`) with CUDA
present, a successful probe yields `True`, an `ImportError` from the
probe is caught and yields `False`, and an exception of any other class
propagates to the caller. -/
theorem flash_probe_behavior (ts : TorchState) (device : Option String)
    (sd : Option Device) (probe : ProbeResult)
    (hcuda : ts.cudaAvailable = true)
    (htag : flashTargetDevice device sd = "auto"
      ∨ flashTargetDevice device sd = "cuda") :
    (probe = ProbeResult.ok →
      is_flash_attention_available ts device sd probe = Except.ok true)
    ∧ (probe = ProbeResult.importError →
      is_flash_attention_available ts device sd probe = Except.ok false)
    ∧ (probe = ProbeResult.otherError →
      is_flash_attention_available ts device sd probe = Except.error ()) := by
  have hbody : is_flash_attention_available ts device sd probe
      = probeFlashAttn probe := by
    simp only [is_flash_attention_available]
    rcases htag with h | h
    · rw [if_pos h, hcuda]
      simp
    · have hne : flashTargetDevice device sd ≠ "auto" := by
        rw [h]; decide
      rw [if_neg hne]
      have hcond : ¬(flashTargetDevice device sd ≠ "cuda"
          ∨ ts.cudaAvailable = false) := by
        rw [h, hcuda]
        decide
      rw [if_neg hcond]
  exact ⟨fun hp => by rw [hbody, hp]; rfl,
         fun hp => by rw [hbody, hp]; rfl,
         fun hp => by rw [hbody, hp]; rfl⟩

/-- C6 witness: resolved tag `"cuda"` with CUDA present, probe succeeding
and probe failing with `ImportError`. -/
theorem flash_probe_behavior_witness :
    is_flash_attention_available tsCudaOnly (some "cuda") none ProbeResult.ok
        = Except.ok true
    ∧ is_flash_attention_available tsCudaOnly (some "cuda") none
        ProbeResult.importError = Except.ok false :=
  ⟨(flash_probe_behavior tsCudaOnly (some "cuda") none ProbeResult.ok rfl
      (Or.inr (by decide))).1 rfl,
   (flash_probe_behavior tsCudaOnly (some "cuda") none ProbeResult.importError rfl
      (Or.inr (by decide))).2.1 rfl⟩

/-- C7: `is_turbo_model` returns `False` when no model configuration is
loaded, `False` when the configuration lacks the `is_turbo` attribute,
and otherwise the value of the configuration's `is_turbo` flag. -/
theorem is_turbo_model_spec :
    is_turbo_model none = PyValue.bool false
    ∧ (∀ c : ModelConfig, c.is_turbo = none → is_turbo_model (some c) = PyValue.bool false)
    ∧ (∀ c : ModelConfig, ∀ v : PyValue, c.is_turbo = some v → is_turbo_model (some c) = v) :=
  ⟨rfl,
   fun c h => by simp [is_turbo_model, h],
   fun c v h => by simp [is_turbo_model, h]⟩

/-- C7 witness: concrete instantiations of the three cases. -/
theorem is_turbo_model_spec_witness :
    is_turbo_model (some ⟨none⟩) = PyValue.bool false
    ∧ is_turbo_model (some ⟨some (PyValue.bool true)⟩) = PyValue.bool true :=
  ⟨is_turbo_model_spec.2.1 ⟨none⟩ rfl,
   is_turbo_model_spec.2.2 ⟨some (PyValue.bool true)⟩ (PyValue.bool true) rfl⟩

/-- C10: when the `is_turbo` attribute is present, `is_turbo_model`
returns its stored value verbatim, with no coercion to a boolean. -/
theorem is_turbo_model_verbatim (c : ModelConfig) (v : PyValue)
    (h : c.is_turbo = some v) :
    is_turbo_model (some c) = v
    ∧ (∀ b : Bool, v ≠ PyValue.bool b → is_turbo_model (some c) ≠ PyValue.bool b) := by
  constructor
  · simp [is_turbo_model, h]
  · intro b hv
    simp [is_turbo_model, h]
    exact hv

/-- C10 witness: a string stored in `is_turbo` is returned as that
string, not converted to either boolean. -/
theorem is_turbo_model_verbatim_witness :
    is_turbo_model (some ⟨some (PyValue.str "yes")⟩) = PyValue.str "yes"
    ∧ is_turbo_model (some ⟨some (PyValue.str "yes")⟩) ≠ PyValue.bool true
    ∧ is_turbo_model (some ⟨some (PyValue.str "yes")⟩) ≠ PyValue.bool false :=
  ⟨(is_turbo_model_verbatim ⟨some (PyValue.str "yes")⟩ (PyValue.str "yes") rfl).1,
   (is_turbo_model_verbatim ⟨some (PyValue.str "yes")⟩ (PyValue.str "yes") rfl).2 true (by decide),
   (is_turbo_model_verbatim ⟨some (PyValue.str "yes")⟩ (PyValue.str "yes") rfl).2 false (by decide)⟩

/-- C9: `get_available_checkpoints` returns at most one entry — the
`checkpoints` directory under the project root — present exactly when
that directory exists, and the empty list otherwise. -/
theorem get_available_checkpoints_spec (fs : FS) :
    (get_available_checkpoints fs).length ≤ 1
    ∧ (fs.checkpointExists = true →
        get_available_checkpoints fs = [osPathJoin fs.projectRoot "checkpoints"])
    ∧ (fs.checkpointExists = false → get_available_checkpoints fs = []) := by
  cases h : fs.checkpointExists <;>
    simp [get_available_checkpoints, h]

/-- C9 witness: a present and an absent checkpoint directory. -/
theorem get_available_checkpoints_spec_witness :
    get_available_checkpoints fsDemo = ["/proj/checkpoints"]
    ∧ get_available_checkpoints fsAbsent = [] := by
  constructor
  · have h := (get_available_checkpoints_spec fsDemo).2.1 rfl
    rw [h]; decide
  · exact (get_available_checkpoints_spec fsAbsent).2.2 rfl

/-- C8: `get_available_acestep_v15_models` returns exactly the directory
entries whose name starts with `acestep-v15-`, in ascending lexicographic
order, and the empty list when the checkpoint directory is missing. -/
theorem get_available_acestep_v15_models_spec (fs : FS) :
    (fs.checkpointExists = false → get_available_acestep_v15_models fs = [])
    ∧ List.Sorted (· ≤ ·) (get_available_acestep_v15_models fs)
    ∧ (∀ n : String, n ∈ get_available_acestep_v15_models fs ↔
        fs.checkpointExists = true ∧
          ∃ e ∈ fs.entries, e.name = n ∧ e.isDir = true
            ∧ pyStartsWith n "acestep-v15-" = true) := by
  refine ⟨?_, ?_, ?_⟩
  · intro h
    simp [get_available_acestep_v15_models, h]
  · exact List.Pairwise.imp (fun h => (pyStrLe_iff_le _ _).mp h)
      (List.sorted_insertionSort _ _)
  · intro n
    simp only [get_available_acestep_v15_models, List.mem_insertionSort]
    cases h : fs.checkpointExists
    · simp
    · simp only [if_pos, List.mem_map, List.mem_filter, Bool.and_eq_true, true_and]
      constructor
      · rintro ⟨e, ⟨he, hd, hp⟩, rfl⟩
        exact ⟨e, he, rfl, hd, hp⟩
      · rintro ⟨e, he, rfl, hd, hp⟩
        exact ⟨e, ⟨he, hd, hp⟩, rfl⟩

/-- C8 witness: on a concrete listing the result keeps exactly the
prefixed directories, sorted, and the missing directory yields `[]`. -/
theorem get_available_acestep_v15_models_spec_witness :
    get_available_acestep_v15_models fsDemo = ["acestep-v15-a", "acestep-v15-b"]
    ∧ List.Sorted (· ≤ ·) (get_available_acestep_v15_models fsDemo)
    ∧ ("zeta" ∈ fsDemo.entries.map DirEntry.name
        ∧ "zeta" ∉ get_available_acestep_v15_models fsDemo)
    ∧ get_available_acestep_v15_models fsAbsent = [] := by
  refine ⟨by decide, (get_available_acestep_v15_models_spec fsDemo).2.1, ⟨by decide, ?_⟩,
    (get_available_acestep_v15_models_spec fsAbsent).1 rfl⟩
  intro hmem
  have h := ((get_available_acestep_v15_models_spec fsDemo).2.2 "zeta").mp hmem
  revert h
  decide

end AceStep
